import Mathlib

/-!
Shallow embedding of the radar receive subsystem of `radar_pi`
(src/src/navico/NavicoReceive.cpp together with the declarations in
src/src/RadarInfo.h), and proofs about it.

Binary buffers are modelled as total functions from byte index to byte
value; every read goes through `rd`, which truncates to an 8-bit value
exactly as a `UINT8` array cell would hold one.  Machine integers are
modelled as `Nat`/`Int` with the C conversions (16-bit sign extension,
32-bit promotion, truncating division, unsigned wraparound) made explicit.
The floating-point range computation of the BR24 branch is modelled over
the real numbers.
-/

/-! ## Constants from NavicoReceive.cpp -/

/-- Number of spoke ids in a rotation, `#define SPOKES (4096)`. -/
def SPOKES : Nat := 4096

/-- The poll quantum of the receive loop, `#define MILLIS_PER_SELECT 250`. -/
def MILLIS_PER_SELECT : Int := 250

/-- Milliseconds per second constant used by `SECONDS_SELECT`. -/
def MILLISECONDS_PER_SECOND : Int := 1000

/-- The macro `SECONDS_SELECT(x) ((x)*MILLISECONDS_PER_SECOND / MILLIS_PER_SELECT)`;
`Int.tdiv` is C's truncating division. -/
def SECONDS_SELECT (x : Int) : Int :=
  Int.tdiv (x * MILLISECONDS_PER_SECOND) MILLIS_PER_SELECT

/-- Modelled from the spec: the radar-presence watchdog duration
`WATCHDOG_TIMEOUT` is defined in the main plugin header, which is not under
src/; the spec only calls it the presence timeout, so its value is kept as
an opaque-but-fixed number of seconds.  No claim depends on the value. -/
def WATCHDOG_TIMEOUT : Int := 10

/-- Modelled from the spec: the data watchdog duration `DATA_TIMEOUT`,
defined in the main plugin header which is not under src/.  No claim
depends on the value. -/
def DATA_TIMEOUT : Int := 5

/-- Modelled from the spec: the length of the per-line return-strength
byte array `RETURNS_PER_LINE`, defined in the main plugin header which is
not under src/.  The spec describes it as a fixed-size array of one byte
per range cell; the claims are independent of the exact value. -/
def RETURNS_PER_LINE : Nat := 512

/-- Modelled from the spec: the distinguished AUTO sentinel base
`AUTO_RANGE`, defined in the main plugin header which is not under src/.
The claims are independent of the exact value. -/
def AUTO_RANGE : Int := -40000

/-! ## Byte buffers and C integer conversions -/

/-- A byte buffer: a total map from index to stored value. -/
def Buf : Type := Nat → Nat

/-- Read one byte of the buffer; a `UINT8` cell only ever holds values
below 256. -/
def rd (b : Buf) (i : Nat) : Nat := b i % 256

/-- Reinterpret a 16-bit pattern as a C `short int` value (two's
complement sign extension). -/
def toInt16 (u : Nat) : Int :=
  if u % 65536 < 32768 then ((u % 65536 : Nat) : Int)
  else ((u % 65536 : Nat) : Int) - 65536

/-- Decode two bytes little-endian as a C `short int`, the pattern
`(hi << 8) | lo` stored into a 16-bit signed variable. -/
def s16 (lo hi : Nat) : Int := toInt16 ((hi % 256) * 256 + lo % 256)

/-- Decode two bytes little-endian as an unsigned 16-bit value. -/
def u16v (lo hi : Nat) : Nat := (hi % 256) * 256 + lo % 256

/-- Decode four bytes little-endian as an unsigned 32-bit value. -/
def u32v (b0 b1 b2 b3 : Nat) : Nat :=
  b0 % 256 + (b1 % 256) * 256 + (b2 % 256) * 65536 + (b3 % 256) * 16777216

/-- The 32-bit pattern of a C `int` value (the promotion a 16-bit
`short int` undergoes before bitwise operations). -/
def bits32 (x : Int) : Nat := (x % (4294967296 : Int)).toNat

/-! ## Heading decode, NavicoReceive.cpp lines 70-72 -/

/-- Flag bit marking a true (rather than magnetic) heading,
`#define HEADING_TRUE_FLAG 0x4000`. -/
def HEADING_TRUE_FLAG : Nat := 0x4000

/-- Magnitude mask for the heading, `#define HEADING_MASK (SPOKES - 1)`. -/
def HEADING_MASK : Nat := SPOKES - 1

/-- The 32-bit pattern of the C expression `~(HEADING_TRUE_FLAG | HEADING_MASK)`
computed on `int`. -/
def NOT_HEADING_BITS : Nat := 4294967295 - (HEADING_TRUE_FLAG ||| HEADING_MASK)

/-- The macro `HEADING_VALID(x) (((x) & ~(HEADING_TRUE_FLAG | HEADING_MASK)) == 0)`
evaluated on the `int` promotion of the signed 16-bit heading value. -/
def HEADING_VALID (x : Int) : Bool := bits32 x &&& NOT_HEADING_BITS == 0

/-- The C test `(heading_raw & HEADING_TRUE_FLAG) != 0` from line 243. -/
def headingTrueFlag (x : Int) : Bool := ¬ (bits32 x &&& HEADING_TRUE_FLAG == 0)

/-- The validity predicate exactly as the spec words it: the heading is
valid when all bits outside a 13-bit magnitude mask and the true-heading
flag bit 0x4000 are zero.  Written from the spec, for comparison against
`HEADING_VALID` which is written from the source. -/
def headingValidSpec13 (u : Nat) : Bool :=
  u &&& (65535 - (0x4000 ||| 0x1FFF)) == 0

/-- The validity predicate with the magnitude mask the code actually uses:
all bits outside the 12-bit mask `HEADING_MASK = SPOKES - 1 = 0x0FFF` and
the flag bit `0x4000` must be zero on the 16-bit raw pattern. -/
def headingValidSpec12 (u : Nat) : Bool :=
  u &&& (65535 - (HEADING_TRUE_FLAG ||| HEADING_MASK)) == 0

/-- Bits at or above the width of a number are clear. -/
theorem testBit_of_lt {x i : Nat} (h : x < 2 ^ i) : x.testBit i = false := by
  simp [Nat.testBit, Nat.shiftRight_eq_div_pow, Nat.div_eq_of_lt h]

/-- A bitwise conjunction with one common set bit is nonzero. -/
theorem land_ne_zero_of_testBit {x m : Nat} (i : Nat)
    (hx : x.testBit i = true) (hm : m.testBit i = true) : x &&& m ≠ 0 := by
  intro h
  have := Nat.testBit_land x m i
  rw [h, hx, hm] at this
  simp [Nat.zero_testBit] at this

/-- On 16-bit raw patterns, the source's `HEADING_VALID` macro (evaluated
after sign extension and promotion to a 32-bit `int`) agrees with clearing
the bits outside the 12-bit magnitude mask and the true-heading flag. -/
theorem heading_valid_iff (u : Nat) (hu : u < 65536) :
    HEADING_VALID (toInt16 u) = headingValidSpec12 u := by
  unfold HEADING_VALID headingValidSpec12 toInt16 bits32 NOT_HEADING_BITS
  unfold HEADING_TRUE_FLAG HEADING_MASK SPOKES
  have e1 : (4294967295 - ((16384 : Nat) ||| (4096 - 1))) = 4294946816 := by decide
  have e2 : (65535 - ((16384 : Nat) ||| (4096 - 1))) = 45056 := by decide
  rw [e1, e2, Nat.mod_eq_of_lt hu]
  by_cases hlt : u < 32768
  · rw [if_pos hlt]
    have hb : ((u : Int) % 4294967296).toNat = u := by omega
    rw [hb]
    have hmask : u &&& 4294946816 = u &&& 45056 := by
      apply Nat.eq_of_testBit_eq
      intro i
      rw [Nat.testBit_land, Nat.testBit_land]
      by_cases hi : i < 15
      · congr 1
        interval_cases i <;> rfl
      · have h1 : u.testBit i = false := by
          apply testBit_of_lt
          calc u < 32768 := hlt
            _ ≤ 2 ^ i := by
              calc (32768 : Nat) = 2 ^ 15 := by norm_num
                _ ≤ 2 ^ i := Nat.pow_le_pow_right (by norm_num) (by omega)
        rw [h1]
        rfl
    rw [hmask]
  · rw [if_neg hlt]
    have hb : (((u : Int) - 65536) % 4294967296).toNat = u + 4294901760 := by omega
    rw [hb]
    have h1 : (u + 4294901760) &&& 4294946816 ≠ 0 := by
      apply land_ne_zero_of_testBit 31
      · simp [Nat.testBit, Nat.shiftRight_eq_div_pow]
        omega
      · rfl
    have h2 : u &&& 45056 ≠ 0 := by
      apply land_ne_zero_of_testBit 15
      · simp [Nat.testBit, Nat.shiftRight_eq_div_pow]
        omega
      · rfl
    simp [h1, h2]

/-! ## Sequence tracker, NavicoReceive.cpp lines 192-199 -/

/-- Modelled from the spec: the initial value of `m_next_spoke`.  The
member is initialised in NavicoReceive.h, which is not under src/; the
spec says that on the very first spoke ever seen there is no prior
expectation, matching the guard `m_next_spoke >= 0` at line 192, so the
initial value is the negative sentinel. -/
def NEXT_SPOKE_INIT : Int := -1

/-- One step of the sequence tracker, lines 192-199.  Given the current
`m_next_spoke`, the current `missing_spokes` statistic and the observed
spoke number, return the new `m_next_spoke` and the new statistic. -/
def trackSpoke (next_spoke : Int) (missing : Nat) (spoke : Nat) : Int × Nat :=
  (((spoke : Int) + 1) % ((SPOKES : Nat) : Int),
   if next_spoke ≥ 0 ∧ (spoke : Int) ≠ next_spoke then
     if (spoke : Int) > next_spoke then
       missing + ((spoke : Int) - next_spoke).toNat
     else
       missing + (((SPOKES : Nat) : Int) + (spoke : Int) - next_spoke).toNat
   else missing)

/-- C1: the sequence tracker's gap accounting.  With the previous observed
number `p` (so that the expected number is `(p+1) % 4096`), a newly
observed number `s`, both in range, and any current statistic `m`:
the new expected number is `(s+1) % 4096`; a sequential spoke (including
across the 4095 → 0 wraparound) adds 0 missing spokes; a non-sequential
spoke adds exactly `(s − p − 1) mod 4096`; and the very first spoke ever
seen (sentinel expectation) adds nothing. -/
theorem seq_tracker_gap (p s m : Nat) (hp : p < 4096) (hs : s < 4096) :
    (trackSpoke (((p : Int) + 1) % 4096) m s).1 = ((s : Int) + 1) % 4096 ∧
    ((s : Int) = ((p : Int) + 1) % 4096 →
      (trackSpoke (((p : Int) + 1) % 4096) m s).2 = m) ∧
    ((s : Int) ≠ ((p : Int) + 1) % 4096 →
      ((trackSpoke (((p : Int) + 1) % 4096) m s).2 : Int) =
        (m : Int) + ((s : Int) - (p : Int) - 1) % 4096) ∧
    (trackSpoke NEXT_SPOKE_INIT m s).2 = m := by
  unfold trackSpoke NEXT_SPOKE_INIT SPOKES
  push_cast
  refine ⟨rfl, ?_, ?_, ?_⟩
  · intro h
    rw [if_neg]
    intro hcond
    exact hcond.2 h
  · intro h
    rw [if_pos ⟨by omega, h⟩]
    split
    · omega
    · omega
  · rw [if_neg]
    intro hcond
    exact hcond.1.elim

/-- Justification that the little-endian byte compositions written
arithmetically in this file (`hi * 256 + lo` and friends) agree with the
C shift-and-or expressions such as `(hi << 8) | lo`: or-ing into cleared
low bits is addition. -/
theorem lor_shl_eq_add {a b k : Nat} (h : b < 2 ^ k) : a <<< k ||| b = 2 ^ k * a + b := by
  apply Nat.eq_of_testBit_eq
  intro i
  rw [Nat.testBit_lor, Nat.testBit_shiftLeft]
  have hpos : (0:ℕ) < 2 ^ k := by positivity
  by_cases hik : k ≤ i
  · have hb : b.testBit i = false := by
      apply Nat.testBit_eq_false_of_lt
      exact lt_of_lt_of_le h (Nat.pow_le_pow_right (by norm_num) hik)
    have hdd : (2 ^ k * a + b) / 2 ^ k = a := by
      rw [Nat.mul_add_div hpos, Nat.div_eq_of_lt h]
      omega
    have hdiv : (2 ^ k * a + b) / 2 ^ i = a / 2 ^ (i - k) := by
      rw [show (2:Nat) ^ i = 2 ^ k * 2 ^ (i - k) by rw [← pow_add]; congr 1; omega]
      rw [← Nat.div_div_eq_div_mul, hdd]
    rw [hb]
    simp only [Nat.testBit_to_div_mod, hdiv]
    simp [hik]
  · have hpos2 : (0:ℕ) < 2 ^ i := by positivity
    have hsplit : 2 ^ k * a = 2 ^ i * (2 * (2 ^ (k - i - 1) * a)) := by
      rw [show (2:Nat) ^ k = 2 ^ i * 2 * 2 ^ (k - i - 1) by
        rw [Nat.mul_assoc, ← pow_succ']
        rw [← pow_add]
        congr 1
        omega]
      ring
    have hdiv : (2 ^ k * a + b) / 2 ^ i = 2 * (2 ^ (k - i - 1) * a) + b / 2 ^ i := by
      rw [hsplit, Nat.mul_add_div hpos2]
    simp only [Nat.testBit_to_div_mod, hdiv]
    have hmod : (2 * (2 ^ (k - i - 1) * a) + b / 2 ^ i) % 2 = b / 2 ^ i % 2 := by omega
    rw [hmod]
    simp [hik]

/-- Witness for `seq_tracker_gap` at `p = 5`, `s = 10`, `m = 0`: observing
spoke 10 when 6 was expected adds 4 missing spokes and sets the new
expectation to 11. -/
theorem seq_tracker_gap_witness :
    (5 : Nat) < 4096 ∧ (10 : Nat) < 4096 ∧
    ((trackSpoke ((((5 : Nat) : Int) + 1) % 4096) 0 10).1 = (((10 : Nat) : Int) + 1) % 4096 ∧
    (((10 : Nat) : Int) = (((5 : Nat) : Int) + 1) % 4096 →
      (trackSpoke ((((5 : Nat) : Int) + 1) % 4096) 0 10).2 = 0) ∧
    (((10 : Nat) : Int) ≠ (((5 : Nat) : Int) + 1) % 4096 →
      ((trackSpoke ((((5 : Nat) : Int) + 1) % 4096) 0 10).2 : Int) =
        ((0 : Nat) : Int) + (((10 : Nat) : Int) - ((5 : Nat) : Int) - 1) % 4096) ∧
    (trackSpoke NEXT_SPOKE_INIT 0 10).2 = 0) :=
  ⟨by decide, by decide, seq_tracker_gap 5 10 0 (by decide) (by decide)⟩

/-! ## Spoke frame decode, NavicoReceive.cpp lines 74-263 -/

/-- The operating state enumeration (`RADAR_OFF` etc.). -/
inductive RadarState
  | OFF
  | STANDBY
  | WAKING_UP
  | TRANSMIT
deriving DecidableEq, Repr

/-- The `receive_statistics` counters of the shared radar state. -/
structure ReceiveStatistics where
  packets : Nat
  broken_packets : Nat
  spokes : Nat
  broken_spokes : Nat
  missing_spokes : Nat
deriving DecidableEq, Repr

/-- The hardware generation a line was decoded as: `memcmp` of the
4-byte marker against `BR24MARK` selects BR24/3G, otherwise 4G. -/
inductive Gen
  | br24
  | br4g
deriving DecidableEq, Repr

/-- Modelled from the spec: the number of lines of the polar image buffer,
`LINES_PER_ROTATION`, defined in the main plugin header which is not under
src/.  The spec fixes it implicitly: angle values on the 4096-point circle
are halved onto 2048 scanlines. -/
def LINES_PER_ROTATION : Int := 2048

/-- Modelled from the spec: the modulus macro `MOD_SPOKES`, defined in the
main plugin header which is not under src/.  The spec says bearings are
reduced onto the 2048-point circle. -/
def MOD_SPOKES (x : Int) : Int := (x % LINES_PER_ROTATION + LINES_PER_ROTATION) % LINES_PER_ROTATION

/-- One decoded spoke as handed to `RadarInfo::ProcessRadarSpoke`
(angle, bearing, generation and raw range instead of the in-branch
floating point range, and the return-strength bytes). -/
structure Spoke where
  a : Int
  bearing : Int
  gen : Gen
  range_raw : Int
  strength : List Nat
deriving DecidableEq, Repr

/-- External inputs of `ProcessFrame`: the wall clock, the
`ignore_radar_heading` setting and the vessel heading already scaled to
raw units by `SCALE_DEGREES_TO_RAW(GetHeadingTrue())` (line 255). -/
structure Env where
  now : Int
  ignore_radar_heading : Bool
  heading_true_raw : Int
deriving DecidableEq, Repr

/-- The part of the shared radar state and of the receiver object that
`ProcessFrame` reads or writes, together with the externally observable
calls it makes: emitted spokes (`ProcessRadarSpoke`) and heading updates
(`SetRadarHeading`; `none` is the argumentless overload that invalidates
the exposed heading). -/
structure FrameState where
  stats : ReceiveStatistics
  next_spoke : Int
  opState : RadarState
  radar_timeout : Int
  data_timeout : Int
  spokesOut : List Spoke
  headingOut : List (Option (Int × Bool))
deriving DecidableEq, Repr

/-- The frame header size `sizeof(packet->frame_hdr)`. -/
def FRAME_HDR_SIZE : Nat := 8

/-- The per-line record size `sizeof(radar_line)`: a 24-byte header union
followed by the return-strength array. -/
def LINE_SIZE : Nat := 24 + RETURNS_PER_LINE

/-- The `memcmp(line->br24.mark, BR24MARK, 4) == 0` test of line 208;
the marker bytes sit at offsets 4..7 of the line. -/
def markIsBR24 (b : Buf) (base : Nat) : Bool :=
  rd b (base + 4) == 0x00 && rd b (base + 5) == 0x44 &&
  rd b (base + 6) == 0x0d && rd b (base + 7) == 0x0e

/-- Range decode of one line, lines 208-235: the BR24 branch assembles a
24-bit raw range from bytes 12..14; the 4G branch reads the signed 16-bit
`largerange` (offset 6) and `smallrange` (offset 12) fields and applies
the sentinel logic of lines 225-233. -/
def decodeLineRange (b : Buf) (base : Nat) : Gen × Int :=
  if markIsBR24 b base then
    (Gen.br24,
     ((rd b (base + 14)) * 65536 + (rd b (base + 13)) * 256 + rd b (base + 12) : Nat))
  else
    (Gen.br4g,
     if s16 (rd b (base + 6)) (rd b (base + 7)) = 0x80 then
       if s16 (rd b (base + 12)) (rd b (base + 13)) = -1 then 0
       else s16 (rd b (base + 12)) (rd b (base + 13))
     else s16 (rd b (base + 6)) (rd b (base + 7)) * 256)

/-- Range in meters from the raw range, lines 212 and 234: the BR24 branch
computes `(int)((double)range_raw * 10.0 / sqrt(2.0))`, modelled over the
reals with the truncation of a nonnegative double being the floor; the 4G
branch is the integer division `range_raw / 4`. -/
noncomputable def rangeMeters : Gen → Int → Int
  | Gen.br24, raw => ⌊(raw : ℝ) * 10 / Real.sqrt 2⌋
  | Gen.br4g, raw => Int.tdiv raw 4

/-- The return-strength byte array `line->data` of one line. -/
def lineStrength (b : Buf) (base : Nat) : List Nat :=
  (List.range RETURNS_PER_LINE).map fun k => rd b (base + 24 + k)

/-- The loop body of `ProcessFrame`, lines 176-261, for the line record
starting at byte offset `base`. -/
def processLine (env : Env) (b : Buf) (base : Nat) (st : FrameState) : FrameState :=
  let spoke := rd b (base + 2) + (rd b (base + 3)) * 256
  let st := { st with stats.spokes := st.stats.spokes + 1 }
  if rd b base ≠ 0x18 then
    { st with stats.missing_spokes := st.stats.missing_spokes + 1,
              next_spoke := ((spoke : Int) + 1) % ((SPOKES : Nat) : Int) }
  else
    let st :=
      if rd b (base + 1) ≠ 0x02 ∧ rd b (base + 1) ≠ 0x12 then
        { st with stats.broken_spokes := st.stats.broken_spokes + 1 }
      else st
    let tr := trackSpoke st.next_spoke st.stats.missing_spokes spoke
    let st := { st with next_spoke := tr.1, stats.missing_spokes := tr.2 }
    let heading_raw := s16 (rd b (base + 10)) (rd b (base + 11))
    let gr := decodeLineRange b base
    let angle_raw : Int := (u16v (rd b (base + 8)) (rd b (base + 9)) : Nat)
    let st :=
      if HEADING_VALID heading_raw && !env.ignore_radar_heading then
        { st with headingOut :=
            st.headingOut ++ [some (heading_raw, headingTrueFlag heading_raw)] }
      else
        { st with headingOut := st.headingOut ++ [none] }
    let bearing_raw := angle_raw + env.heading_true_raw
    { st with spokesOut := st.spokesOut ++
        [{ a := MOD_SPOKES (Int.tdiv angle_raw 2),
           bearing := MOD_SPOKES (Int.tdiv bearing_raw 2),
           gen := gr.1,
           range_raw := gr.2,
           strength := lineStrength b base }] }

/-- The spoke frame decoder `NavicoReceive::ProcessFrame`, lines 139-263:
preamble (watchdog refresh, state update, packet count), header length
check, scanline count, and the per-line loop. -/
def processFrame (env : Env) (b : Buf) (len : Nat) (st : FrameState) : FrameState :=
  let st := { st with
    radar_timeout := env.now + WATCHDOG_TIMEOUT,
    data_timeout := env.now + DATA_TIMEOUT,
    opState := RadarState.TRANSMIT,
    stats.packets := st.stats.packets + 1 }
  if len < FRAME_HDR_SIZE then
    { st with stats.broken_packets := st.stats.broken_packets + 1 }
  else
    let scanlines_in_packet := (len - FRAME_HDR_SIZE) / LINE_SIZE
    let st :=
      if scanlines_in_packet ≠ 32 then
        { st with stats.broken_packets := st.stats.broken_packets + 1 }
      else st
    (List.range scanlines_in_packet).foldl
      (fun s i => processLine env b (FRAME_HDR_SIZE + LINE_SIZE * i) s) st

/-- Processing one line never touches the operating state, the two
watchdog deadlines or the packet counter. -/
theorem processLine_preserves (env : Env) (b : Buf) (base : Nat) (st : FrameState) :
    (processLine env b base st).opState = st.opState ∧
    (processLine env b base st).radar_timeout = st.radar_timeout ∧
    (processLine env b base st).data_timeout = st.data_timeout ∧
    (processLine env b base st).stats.packets = st.stats.packets := by
  unfold processLine
  dsimp only
  repeat' split
  all_goals exact ⟨rfl, rfl, rfl, rfl⟩

/-- Folding the line loop over any index list never touches the operating
state, the watchdog deadlines or the packet counter. -/
theorem foldl_processLine_preserves (env : Env) (b : Buf) (l : List Nat) (st : FrameState) :
    (l.foldl (fun s i => processLine env b (FRAME_HDR_SIZE + LINE_SIZE * i) s) st).opState
        = st.opState ∧
    (l.foldl (fun s i => processLine env b (FRAME_HDR_SIZE + LINE_SIZE * i) s) st).radar_timeout
        = st.radar_timeout ∧
    (l.foldl (fun s i => processLine env b (FRAME_HDR_SIZE + LINE_SIZE * i) s) st).data_timeout
        = st.data_timeout ∧
    (l.foldl (fun s i => processLine env b (FRAME_HDR_SIZE + LINE_SIZE * i) s) st).stats.packets
        = st.stats.packets := by
  induction l generalizing st with
  | nil => exact ⟨rfl, rfl, rfl, rfl⟩
  | cons x xs ih =>
    simp only [List.foldl_cons]
    have h1 := processLine_preserves env b (FRAME_HDR_SIZE + LINE_SIZE * x) st
    have h2 := ih (processLine env b (FRAME_HDR_SIZE + LINE_SIZE * x) st)
    exact ⟨h2.1.trans h1.1, h2.2.1.trans h1.2.1, h2.2.2.1.trans h1.2.2.1,
           h2.2.2.2.trans h1.2.2.2⟩

/-- C10: every call of the spoke-frame decoder on a non-empty datagram,
including datagrams it then counts as broken packets (for example shorter
than the 8-byte frame header), unconditionally forces the operating state
to TRANSMIT, refreshes the radar-presence and data watchdog deadlines, and
increments the packet counter; no header validation can prevent this. -/
theorem frame_preamble (env : Env) (b : Buf) (len : Nat) (st : FrameState)
    (hlen : 0 < len) :
    (processFrame env b len st).opState = RadarState.TRANSMIT ∧
    (processFrame env b len st).radar_timeout = env.now + WATCHDOG_TIMEOUT ∧
    (processFrame env b len st).data_timeout = env.now + DATA_TIMEOUT ∧
    (processFrame env b len st).stats.packets = st.stats.packets + 1 := by
  unfold processFrame
  dsimp only
  split
  · exact ⟨rfl, rfl, rfl, rfl⟩
  · split
    · have h := foldl_processLine_preserves env b
        (List.range ((len - FRAME_HDR_SIZE) / LINE_SIZE))
        { st with
          radar_timeout := env.now + WATCHDOG_TIMEOUT,
          data_timeout := env.now + DATA_TIMEOUT,
          opState := RadarState.TRANSMIT,
          stats.packets := st.stats.packets + 1,
          stats.broken_packets := st.stats.broken_packets + 1 }
      exact ⟨h.1, h.2.1, h.2.2.1, h.2.2.2⟩
    · have h := foldl_processLine_preserves env b
        (List.range ((len - FRAME_HDR_SIZE) / LINE_SIZE))
        { st with
          radar_timeout := env.now + WATCHDOG_TIMEOUT,
          data_timeout := env.now + DATA_TIMEOUT,
          opState := RadarState.TRANSMIT,
          stats.packets := st.stats.packets + 1 }
      exact ⟨h.1, h.2.1, h.2.2.1, h.2.2.2⟩

/-- Witness for `frame_preamble`: a one-byte datagram (too short for the
frame header, counted broken) still forces TRANSMIT, refreshes both
deadlines and counts the packet. -/
theorem frame_preamble_witness :
    (0 : Nat) < 1 ∧
    ((processFrame ⟨0, false, 0⟩ (fun _ => 0) 1 ⟨⟨0, 0, 0, 0, 0⟩, -1, RadarState.OFF, 0, 0, [], []⟩).opState = RadarState.TRANSMIT ∧
    (processFrame ⟨0, false, 0⟩ (fun _ => 0) 1 ⟨⟨0, 0, 0, 0, 0⟩, -1, RadarState.OFF, 0, 0, [], []⟩).radar_timeout = (0 : Int) + WATCHDOG_TIMEOUT ∧
    (processFrame ⟨0, false, 0⟩ (fun _ => 0) 1 ⟨⟨0, 0, 0, 0, 0⟩, -1, RadarState.OFF, 0, 0, [], []⟩).data_timeout = (0 : Int) + DATA_TIMEOUT ∧
    (processFrame ⟨0, false, 0⟩ (fun _ => 0) 1 ⟨⟨0, 0, 0, 0, 0⟩, -1, RadarState.OFF, 0, 0, [], []⟩).stats.packets = 0 + 1) :=
  ⟨by decide, frame_preamble ⟨0, false, 0⟩ (fun _ => 0) 1 ⟨⟨0, 0, 0, 0, 0⟩, -1, RadarState.OFF, 0, 0, [], []⟩ (by decide)⟩

/-- When the line header length matches but the decoded heading is invalid,
the line loop body performs the argumentless `SetRadarHeading()` call: the
exposed heading is invalidated, never updated from the invalid raw value. -/
theorem processLine_headingOut_invalid (env : Env) (b : Buf) (base : Nat) (st : FrameState)
    (hhdr : rd b base = 0x18)
    (hinv : HEADING_VALID (s16 (rd b (base + 10)) (rd b (base + 11))) = false) :
    (processLine env b base st).headingOut = st.headingOut ++ [none] := by
  unfold processLine
  dsimp only
  rw [if_neg (show ¬(rd b base ≠ 0x18) by simp [hhdr])]
  dsimp only
  have hcond : ¬((HEADING_VALID (s16 (rd b (base + 10)) (rd b (base + 11))) &&
      !env.ignore_radar_heading) = true) := by
    simp [hinv]
  rw [if_neg hcond]
  split <;> rfl

/-- C2 (amended): heading validity uses the 12-bit magnitude mask
`HEADING_MASK = 0x0FFF` (not a 13-bit one): a 16-bit raw heading is valid
exactly when all bits outside that mask and the true-heading flag bit
0x4000 are zero; raw 0x8000 is invalid, raw 0x07d6 is valid with the flag
clear, raw 0x4000|0x07d6 is valid with the flag set; and an invalid
heading is never used to update the exposed heading value. -/
theorem heading_validity_amended (u : Nat) (hu : u < 65536)
    (env : Env) (b : Buf) (base : Nat) (st : FrameState)
    (hhdr : rd b base = 0x18)
    (hinv : HEADING_VALID (s16 (rd b (base + 10)) (rd b (base + 11))) = false) :
    HEADING_VALID (toInt16 u) = headingValidSpec12 u ∧
    HEADING_VALID (toInt16 0x8000) = false ∧
    HEADING_VALID (toInt16 0x07d6) = true ∧
    headingTrueFlag (toInt16 0x07d6) = false ∧
    HEADING_VALID (toInt16 (0x4000 ||| 0x07d6)) = true ∧
    headingTrueFlag (toInt16 (0x4000 ||| 0x07d6)) = true ∧
    (processLine env b base st).headingOut = st.headingOut ++ [none] :=
  ⟨heading_valid_iff u hu, by decide, by decide, by decide, by decide, by decide,
   processLine_headingOut_invalid env b base st hhdr hinv⟩

/-- Counterexample to C2 as stated: with a 13-bit magnitude mask the raw
value 0x1000 would be a valid heading, but the code's `HEADING_VALID`
rejects it, because `HEADING_MASK = SPOKES - 1 = 0x0FFF` is a 12-bit mask. -/
theorem heading_mask_13bit_counterexample :
    headingValidSpec13 0x1000 = true ∧ HEADING_VALID (toInt16 0x1000) = false := by
  decide

/-- Witness buffer for `heading_validity_amended`: byte 0 holds the
expected header length 0x18 and byte 11 makes the heading field 0x8000. -/
def hdgWitnessBuf : Buf := fun i => if i = 0 then 0x18 else if i = 11 then 0x80 else 0

/-- Witness state with empty outputs. -/
def emptyFrameState : FrameState :=
  ⟨⟨0, 0, 0, 0, 0⟩, -1, RadarState.OFF, 0, 0, [], []⟩

/-- Witness for `heading_validity_amended` at `u = 0x07d6` on a line whose
heading field is the invalid 0x8000. -/
theorem heading_validity_amended_witness :
    (0x07d6 : Nat) < 65536 ∧
    rd hdgWitnessBuf 0 = 0x18 ∧
    HEADING_VALID (s16 (rd hdgWitnessBuf (0 + 10)) (rd hdgWitnessBuf (0 + 11))) = false ∧
    (HEADING_VALID (toInt16 0x07d6) = headingValidSpec12 0x07d6 ∧
    HEADING_VALID (toInt16 0x8000) = false ∧
    HEADING_VALID (toInt16 0x07d6) = true ∧
    headingTrueFlag (toInt16 0x07d6) = false ∧
    HEADING_VALID (toInt16 (0x4000 ||| 0x07d6)) = true ∧
    headingTrueFlag (toInt16 (0x4000 ||| 0x07d6)) = true ∧
    (processLine ⟨0, false, 0⟩ hdgWitnessBuf 0 emptyFrameState).headingOut =
      emptyFrameState.headingOut ++ [none]) :=
  ⟨by decide, by decide, by decide,
   heading_validity_amended 0x07d6 (by decide) ⟨0, false, 0⟩ hdgWitnessBuf 0
     emptyFrameState (by decide) (by decide)⟩

/-- C3: newer-layout (non-BR24) range decode.  When the 4-byte marker does
not match, the line is decoded in 4G mode; if the signed 16-bit large-range
field equals the sentinel 0x80 the raw range is the signed 16-bit
small-range field unless that is the sentinel −1 (raw range 0), otherwise
the raw range is large-range × 256; meters are the truncating division of
the raw range by 4, so 400 raw gives 100 m, the invalid case gives 0 m and
large-range 10 (raw 2560) gives 640 m. -/
theorem br4g_range_decode (b : Buf) (base : Nat)
    (hmark : markIsBR24 b base = false) :
    (decodeLineRange b base).1 = Gen.br4g ∧
    (decodeLineRange b base).2 =
      (if s16 (rd b (base + 6)) (rd b (base + 7)) = 0x80 then
        if s16 (rd b (base + 12)) (rd b (base + 13)) = -1 then 0
        else s16 (rd b (base + 12)) (rd b (base + 13))
       else s16 (rd b (base + 6)) (rd b (base + 7)) * 256) ∧
    rangeMeters Gen.br4g (decodeLineRange b base).2 = (decodeLineRange b base).2.tdiv 4 ∧
    rangeMeters Gen.br4g 400 = 100 ∧
    rangeMeters Gen.br4g 0 = 0 ∧
    rangeMeters Gen.br4g 2560 = 640 := by
  unfold decodeLineRange
  rw [hmark]
  exact ⟨rfl, rfl, rfl, by decide, by decide, by decide⟩

/-- Witness buffer for `br4g_range_decode`: a 4G line with large-range
sentinel 0x80 and small-range 400. -/
def br4gWitnessBuf : Buf := fun i =>
  if i = 4 then 0x00 else if i = 5 then 0x44 else
  if i = 6 then 0x80 else if i = 7 then 0x00 else
  if i = 12 then 0x90 else if i = 13 then 0x01 else 0

/-- Witness for `br4g_range_decode`: large-range 0x80 with small-range 400
decodes to raw range 400 and 100 meters. -/
theorem br4g_range_decode_witness :
    markIsBR24 br4gWitnessBuf 0 = false ∧
    ((decodeLineRange br4gWitnessBuf 0).1 = Gen.br4g ∧
    (decodeLineRange br4gWitnessBuf 0).2 =
      (if s16 (rd br4gWitnessBuf (0 + 6)) (rd br4gWitnessBuf (0 + 7)) = 0x80 then
        if s16 (rd br4gWitnessBuf (0 + 12)) (rd br4gWitnessBuf (0 + 13)) = -1 then 0
        else s16 (rd br4gWitnessBuf (0 + 12)) (rd br4gWitnessBuf (0 + 13))
       else s16 (rd br4gWitnessBuf (0 + 6)) (rd br4gWitnessBuf (0 + 7)) * 256) ∧
    rangeMeters Gen.br4g (decodeLineRange br4gWitnessBuf 0).2 =
      (decodeLineRange br4gWitnessBuf 0).2.tdiv 4 ∧
    rangeMeters Gen.br4g 400 = 100 ∧
    rangeMeters Gen.br4g 0 = 0 ∧
    rangeMeters Gen.br4g 2560 = 640) :=
  ⟨by decide, br4g_range_decode br4gWitnessBuf 0 (by decide)⟩

/-- C9: older-layout (BR24) range decode.  When the 4-byte marker matches,
the line is decoded in BR24 mode with the 24-bit raw range taken
little-endian from bytes 12..14, the meters value is the raw range scaled
by 10/√2 (truncated), and in particular raw 1000 yields 7071 meters. -/
theorem br24_range_decode (b : Buf) (base : Nat)
    (hmark : markIsBR24 b base = true) :
    (decodeLineRange b base).1 = Gen.br24 ∧
    (decodeLineRange b base).2 =
      ((rd b (base + 14)) * 65536 + (rd b (base + 13)) * 256 + rd b (base + 12) : Nat) ∧
    rangeMeters Gen.br24 (decodeLineRange b base).2 =
      ⌊(((decodeLineRange b base).2 : ℝ)) * 10 / Real.sqrt 2⌋ ∧
    rangeMeters Gen.br24 1000 = 7071 := by
  unfold decodeLineRange
  rw [hmark]
  refine ⟨rfl, rfl, rfl, ?_⟩
  show ⌊((1000 : Int) : ℝ) * 10 / Real.sqrt 2⌋ = 7071
  have h2 : (0:ℝ) < Real.sqrt 2 := Real.sqrt_pos.mpr (by norm_num)
  have hsq : Real.sqrt 2 ^ 2 = 2 := Real.sq_sqrt (by norm_num)
  have hv : ((1000 : Int) : ℝ) * 10 = 10000 := by norm_num
  rw [hv, Int.floor_eq_iff]
  constructor
  · rw [le_div_iff₀ h2]
    push_cast
    nlinarith [h2.le, sq_nonneg (7071 * Real.sqrt 2 - 10000)]
  · rw [div_lt_iff₀ h2]
    push_cast
    nlinarith [h2.le, sq_nonneg (10000 - 7072 * Real.sqrt 2)]

/-- Witness buffer for `br24_range_decode`: a BR24 line whose range bytes
encode 1000. -/
def br24WitnessBuf : Buf := fun i =>
  if i = 4 then 0x00 else if i = 5 then 0x44 else
  if i = 6 then 0x0d else if i = 7 then 0x0e else
  if i = 12 then 0xE8 else if i = 13 then 0x03 else 0

/-- Witness for `br24_range_decode` on a concrete BR24 line with raw range
1000. -/
theorem br24_range_decode_witness :
    markIsBR24 br24WitnessBuf 0 = true ∧
    ((decodeLineRange br24WitnessBuf 0).1 = Gen.br24 ∧
    (decodeLineRange br24WitnessBuf 0).2 =
      ((rd br24WitnessBuf (0 + 14)) * 65536 + (rd br24WitnessBuf (0 + 13)) * 256 +
        rd br24WitnessBuf (0 + 12) : Nat) ∧
    rangeMeters Gen.br24 (decodeLineRange br24WitnessBuf 0).2 =
      ⌊(((decodeLineRange br24WitnessBuf 0).2 : ℝ)) * 10 / Real.sqrt 2⌋ ∧
    rangeMeters Gen.br24 1000 = 7071) :=
  ⟨by decide, br24_range_decode br24WitnessBuf 0 (by decide)⟩

/-! ## Status reports, NavicoReceive.cpp lines 558-868 -/

/-- One tunable radar setting.  Modelled from the spec: the spec's
ControlValue carries the current value and a modified-since-acknowledge
flag; `radar_control_item::Update` is implemented in RadarInfo.cpp, which
is not under src/, and the spec says the update operation stores the value
and records whether it changed for the dependent UI refresh.  The
button/origin tag is not touched by any claim and is left out. -/
structure ControlItem where
  value : Int
  mod : Bool
deriving DecidableEq, Repr

/-- Modelled from the spec: the ControlValue update operation. -/
def ControlItem.Update (c : ControlItem) (v : Int) : ControlItem :=
  { value := v, mod := c.mod || (c.value != v) }

/-- All ControlValues the report dispatcher can touch (RadarInfo.h). -/
structure Controls where
  gain : ControlItem
  rain : ControlItem
  sea : ControlItem
  target_boost : ControlItem
  interference_rejection : ControlItem
  target_expansion : ControlItem
  range : ControlItem
  bearing_alignment : ControlItem
  antenna_height : ControlItem
  scan_speed : ControlItem
  noise_rejection : ControlItem
  target_separation : ControlItem
  side_lobe_suppression : ControlItem
  local_interference_rejection : ControlItem
deriving DecidableEq, Repr

/-- The state `ProcessReport` reads or writes: the ControlValues, the
cached `m_radar_status`, the operating state, the watchdog deadlines und
the published build-info text (as the two scanned code-unit lists). -/
structure ReportState where
  controls : Controls
  radar_status : Nat
  opState : RadarState
  radar_timeout : Int
  data_timeout : Int
  buildInfo : Option (List Nat × List Nat)
deriving DecidableEq, Repr

/-- The `AppendChar16String` loop of lines 637-642: collect 16-bit code
units from offset `off` until a zero unit.  The C loop is unbounded until
it meets a zero; the model bounds it by a fuel larger than any datagram
the receive loop can hand over (the receive buffer is one frame packet,
under 64 kB). -/
def scanChar16 (b : Buf) (off : Nat) : Nat → List Nat
  | 0 => []
  | fuel + 1 =>
    let w := u16v (rd b off) (rd b (off + 1))
    if w = 0 then [] else w :: scanChar16 b (off + 2) fuel

/-- The decode paths of `ProcessReport`. -/
inductive ReportCase
  | r01C4
  | r02C4
  | r03C4
  | r04C4
  | r08C4
  | unknownC4
  | familyF5
  | unknownFamily
deriving DecidableEq, Repr

/-- Path selection of `ProcessReport`: the family test on byte 1 (lines
661 and 829) and the `switch ((len << 8) + report[0])` of line 663.  The
selected path is a function of the datagram length and the first two
bytes only. -/
def reportCase (len b0 b1 : Nat) : ReportCase :=
  if b1 = 0xC4 then
    if (len <<< 8) + b0 = (18 <<< 8) + 0x01 then ReportCase.r01C4
    else if (len <<< 8) + b0 = (99 <<< 8) + 0x02 then ReportCase.r02C4
    else if (len <<< 8) + b0 = (129 <<< 8) + 0x03 then ReportCase.r03C4
    else if (len <<< 8) + b0 = (66 <<< 8) + 0x04 then ReportCase.r04C4
    else if (len <<< 8) + b0 = (18 <<< 8) + 0x08 then ReportCase.r08C4
    else ReportCase.unknownC4
  else if b1 = 0xF5 then ReportCase.familyF5
  else ReportCase.unknownFamily

/-- The `RadarReport_01C4_18` case, lines 664-696: the status block runs
only when the status byte differs from the cached `m_radar_status`; 0x01
maps to STANDBY, 0x02 to TRANSMIT, 0x05 to WAKING_UP with a data-timeout
refresh, anything else only produces a status text. -/
def applyReport01 (b : Buf) (now : Int) (st : ReportState) : ReportState :=
  let status := rd b 2
  if status ≠ st.radar_status then
    let st := { st with radar_status := status }
    if status = 0x01 then { st with opState := RadarState.STANDBY }
    else if status = 0x02 then { st with opState := RadarState.TRANSMIT }
    else if status = 0x05 then
      { st with opState := RadarState.WAKING_UP, data_timeout := now + DATA_TIMEOUT }
    else st
  else st

/-- The `RadarReport_02C4_99` case, lines 698-720.  The `sea` field is a
`UINT32`, so `s->sea * 100 / 255` wraps modulo 2^32 before the division. -/
def applyReport02 (b : Buf) (st : ReportState) : ReportState :=
  let field8 := u32v (rd b 8) (rd b 9) (rd b 10) (rd b 11)
  let sea_auto := rd b 13
  let sea := u32v (rd b 17) (rd b 18) (rd b 19) (rd b 20)
  let c := st.controls
  let c :=
    if field8 = 1 then { c with gain := c.gain.Update (AUTO_RANGE - 1) }
    else { c with gain := c.gain.Update ((rd b 12 * 100 / 255 : Nat)) }
  let c := { c with rain := c.rain.Update ((rd b 22 * 100 / 255 : Nat)) }
  let c :=
    if sea_auto > 0 then { c with sea := c.sea.Update (AUTO_RANGE - sea_auto) }
    else { c with sea := c.sea.Update ((sea * 100 % 4294967296 / 255 : Nat)) }
  let c := { c with target_boost := c.target_boost.Update (rd b 42) }
  let c := { c with interference_rejection := c.interference_rejection.Update (rd b 34) }
  let c := { c with target_expansion := c.target_expansion.Update (rd b 38) }
  let c := { c with range := c.range.Update ((u32v (rd b 2) (rd b 3) (rd b 4) (rd b 5) / 10 : Nat)) }
  { st with controls := c }

/-- The `RadarReport_04C4_66` case, lines 767-783: bearing alignment is the
unsigned 16-bit field at offset 6 divided by 10, reduced by 360 once when
above 180; antenna height is the unsigned 16-bit field at offset 10
divided by 1000. -/
def applyReport04 (b : Buf) (st : ReportState) : ReportState :=
  let ba0 : Int := ((u16v (rd b 6) (rd b 7) / 10 : Nat) : Int)
  let ba : Int := if ba0 > 180 then ba0 - 360 else ba0
  let c := st.controls
  let c := { c with bearing_alignment := c.bearing_alignment.Update ba }
  let c := { c with antenna_height :=
      c.antenna_height.Update ((u16v (rd b 10) (rd b 11) / 1000 : Nat)) }
  { st with controls := c }

/-- The `RadarReport_08C4_18` case, lines 799-820. -/
def applyReport08 (b : Buf) (st : ReportState) : ReportState :=
  let c := st.controls
  let c := { c with scan_speed := c.scan_speed.Update (rd b 4) }
  let c := { c with noise_rejection := c.noise_rejection.Update (rd b 12) }
  let c := { c with target_separation := c.target_separation.Update (rd b 13) }
  let c :=
    if rd b 5 = 1 then
      { c with side_lobe_suppression := c.side_lobe_suppression.Update (AUTO_RANGE - 1) }
    else
      { c with side_lobe_suppression :=
          c.side_lobe_suppression.Update ((rd b 9 * 100 / 255 : Nat)) }
  let c := { c with local_interference_rejection :=
      c.local_interference_rejection.Update (rd b 3) }
  { st with controls := c }

/-- The status report decoder `NavicoReceive::ProcessReport`, lines
644-868: watchdog refresh, then dispatch on the path selected by
`reportCase`; the returned Bool is the C return value (`true` for the two
known families, `false` otherwise). -/
def processReport (b : Buf) (len : Nat) (now : Int) (st : ReportState) : Bool × ReportState :=
  let st := { st with radar_timeout := now + WATCHDOG_TIMEOUT }
  match reportCase len (rd b 0) (rd b 1) with
  | ReportCase.r01C4 => (true, applyReport01 b now st)
  | ReportCase.r02C4 => (true, applyReport02 b st)
  | ReportCase.r03C4 =>
      (true, { st with buildInfo := some (scanChar16 b 58 65536, scanChar16 b 90 65536) })
  | ReportCase.r04C4 => (true, applyReport04 b st)
  | ReportCase.r08C4 => (true, applyReport08 b st)
  | ReportCase.unknownC4 => (true, st)
  | ReportCase.familyF5 => (true, st)
  | ReportCase.unknownFamily => (false, st)

/-- A neutral ControlItem. -/
def zeroControl : ControlItem := ⟨0, false⟩

/-- A ReportState with all controls neutral. -/
def emptyReportState : ReportState :=
  ⟨⟨zeroControl, zeroControl, zeroControl, zeroControl, zeroControl, zeroControl,
    zeroControl, zeroControl, zeroControl, zeroControl, zeroControl, zeroControl,
    zeroControl, zeroControl⟩, 0, RadarState.OFF, 0, 0, none⟩

/-- One-byte datagram whose out-of-range byte 1 reads 0xC4. -/
def reportOobBufA : Buf := fun i => if i = 1 then 0xC4 else 0x01

/-- One-byte datagram whose out-of-range byte 1 reads 0x01. -/
def reportOobBufB : Buf := fun _ => 0x01

/-- C4 (violation witness): the status-report decoder dereferences
`report[1]` before any length check, so two one-byte datagrams that agree
on every byte below the declared length (index 0 only) are classified
differently — the classification depends on the byte at index 1, at or
beyond the declared length. -/
theorem report_reads_past_declared_length :
    rd reportOobBufA 0 = rd reportOobBufB 0 ∧
    (processReport reportOobBufA 1 0 emptyReportState).1 = true ∧
    (processReport reportOobBufB 1 0 emptyReportState).1 = false := by
  decide

/-- The known dispatch keys of the interpreted 0xC4 family:
(declared length, first byte). -/
def knownReportKeys : List (Nat × Nat) :=
  [(18, 0x01), (99, 0x02), (129, 0x03), (66, 0x04), (18, 0x08)]

/-- A key outside the known set selects one of the three pass-through
paths, whichever family byte 1 shows. -/
theorem reportCase_unknown (len b0 b1 : Nat) (hb0 : b0 < 256)
    (hk : (len, b0) ∉ knownReportKeys) :
    reportCase len b0 b1 =
      (if b1 = 0xC4 then ReportCase.unknownC4
       else if b1 = 0xF5 then ReportCase.familyF5
       else ReportCase.unknownFamily) := by
  unfold reportCase
  simp only [knownReportKeys, List.mem_cons, List.not_mem_nil, or_false, not_or,
    Prod.mk.injEq, not_and] at hk
  obtain ⟨hk1, hk2, hk3, hk4, hk5⟩ := hk
  rw [Nat.shiftLeft_eq]
  have c1 : ¬(len * 2 ^ 8 + b0 = 18 * 2 ^ 8 + 0x01) := by
    intro h
    exact hk1 (by omega) (by omega)
  have c2 : ¬(len * 2 ^ 8 + b0 = 99 * 2 ^ 8 + 0x02) := by
    intro h
    exact hk2 (by omega) (by omega)
  have c3 : ¬(len * 2 ^ 8 + b0 = 129 * 2 ^ 8 + 0x03) := by
    intro h
    exact hk3 (by omega) (by omega)
  have c4 : ¬(len * 2 ^ 8 + b0 = 66 * 2 ^ 8 + 0x04) := by
    intro h
    exact hk4 (by omega) (by omega)
  have c5 : ¬(len * 2 ^ 8 + b0 = 18 * 2 ^ 8 + 0x08) := by
    intro h
    exact hk5 (by omega) (by omega)
  by_cases hf : b1 = 0xC4
  · rw [if_pos hf, if_pos hf, if_neg (by rw [Nat.shiftLeft_eq]; exact c1),
      if_neg (by rw [Nat.shiftLeft_eq]; exact c2), if_neg (by rw [Nat.shiftLeft_eq]; exact c3),
      if_neg (by rw [Nat.shiftLeft_eq]; exact c4), if_neg (by rw [Nat.shiftLeft_eq]; exact c5)]
  · rw [if_neg hf, if_neg hf]

/-- C7: a status report whose (declared length, first byte) dispatch key
is outside the known set mutates no ControlValue and does not change the
operating state; it is accepted (return value depends only on the family
byte, true for the two known families); and the selected decode path is a
function of the (length, type byte, family byte) triple alone, never of
the remaining payload. -/
theorem unknown_report_is_ignored (b : Buf) (len : Nat) (now : Int) (st : ReportState)
    (hk : (len, rd b 0) ∉ knownReportKeys)
    (c : Buf) (h0 : rd c 0 = rd b 0) (h1 : rd c 1 = rd b 1) :
    (processReport b len now st).2.controls = st.controls ∧
    (processReport b len now st).2.opState = st.opState ∧
    (processReport b len now st).1 = ((rd b 1 == 0xC4) || (rd b 1 == 0xF5)) ∧
    reportCase len (rd c 0) (rd c 1) = reportCase len (rd b 0) (rd b 1) := by
  have hb0 : rd b 0 < 256 := Nat.mod_lt _ (by norm_num)
  have hcase := reportCase_unknown len (rd b 0) (rd b 1) hb0 hk
  by_cases hf : rd b 1 = 0xC4
  · have hcase2 : reportCase len (rd b 0) (rd b 1) = ReportCase.unknownC4 := by
      rw [hcase, if_pos hf]
    unfold processReport
    rw [h0, h1, hcase2, hf]
    exact ⟨rfl, rfl, rfl, rfl⟩
  · by_cases hf5 : rd b 1 = 0xF5
    · have hcase2 : reportCase len (rd b 0) (rd b 1) = ReportCase.familyF5 := by
        rw [hcase, if_neg hf, if_pos hf5]
      unfold processReport
      rw [h0, h1, hcase2, hf5]
      exact ⟨rfl, rfl, rfl, rfl⟩
    · have hcase2 : reportCase len (rd b 0) (rd b 1) = ReportCase.unknownFamily := by
        rw [hcase, if_neg hf, if_neg hf5]
      unfold processReport
      rw [h0, h1, hcase2]
      refine ⟨rfl, rfl, ?_, rfl⟩
      have e1 : (rd b 1 == 0xC4) = false := by
        simpa using hf
      have e2 : (rd b 1 == 0xF5) = false := by
        simpa using hf5
      rw [e1, e2]
      rfl

/-- Witness for `unknown_report_is_ignored`: an unknown 0xC4 report of
length 5 with first byte 0x77 leaves everything unchanged. -/
theorem unknown_report_is_ignored_witness :
    ((5 : Nat), rd (fun _ => 0x77) 0) ∉ knownReportKeys ∧
    rd (fun _ => 0x77) 0 = rd (fun _ => 0x77) 0 ∧
    rd (fun _ => 0x77) 1 = rd (fun _ => 0x77) 1 ∧
    ((processReport (fun _ => 0x77) 5 0 emptyReportState).2.controls = emptyReportState.controls ∧
    (processReport (fun _ => 0x77) 5 0 emptyReportState).2.opState = emptyReportState.opState ∧
    (processReport (fun _ => 0x77) 5 0 emptyReportState).1 =
      ((rd (fun _ => 0x77) 1 == 0xC4) || (rd (fun _ => 0x77) 1 == 0xF5)) ∧
    reportCase 5 (rd (fun _ => 0x77) 0) (rd (fun _ => 0x77) 1) =
      reportCase 5 (rd (fun _ => 0x77) 0) (rd (fun _ => 0x77) 1)) :=
  ⟨by decide, rfl, rfl,
   unknown_report_is_ignored (fun _ => 0x77) 5 0 emptyReportState (by decide)
     (fun _ => 0x77) rfl rfl⟩

/-- A length-18 01C4 report whose status byte is 0x01 (STANDBY). -/
def statusRepeatBuf : Buf := fun i =>
  if i = 0 then 0x01 else if i = 1 then 0xC4 else if i = 2 then 0x01 else 0

/-- A ReportState whose cached `m_radar_status` is already 0x01 while the
operating state is OFF (reachable: a STANDBY report followed by the
presence watchdog forcing OFF leaves the cache at 0x01). -/
def statusRepeatState : ReportState :=
  { emptyReportState with radar_status := 0x01, opState := RadarState.OFF }

/-- Counterexample to C5 as stated: an operating-status report with status
byte 0x01 does not always yield STANDBY — when the cached previous status
byte already equals 0x01 the whole status block is skipped and the
operating state stays OFF. -/
theorem status_report_claim_counterexample :
    rd statusRepeatBuf 2 = 0x01 ∧
    (processReport statusRepeatBuf 18 0 statusRepeatState).2.opState = RadarState.OFF := by
  decide

/-- C5 (amended): for a length-18 01C4 operating-status report, if the
status byte equals the cached previous status byte the report changes
neither the operating state nor the data deadline; otherwise 0x01 yields
STANDBY, 0x02 yields TRANSMIT, 0x05 yields WAKING_UP and refreshes the
data-timeout deadline, and any other status byte leaves state and data
deadline unchanged (STANDBY and TRANSMIT never touch the data deadline). -/
theorem status_report_amended (b : Buf) (now : Int) (st : ReportState)
    (h0 : rd b 0 = 0x01) (h1 : rd b 1 = 0xC4) :
    (rd b 2 = st.radar_status →
      (processReport b 18 now st).2.opState = st.opState ∧
      (processReport b 18 now st).2.data_timeout = st.data_timeout) ∧
    (rd b 2 ≠ st.radar_status →
      (rd b 2 = 0x01 →
        (processReport b 18 now st).2.opState = RadarState.STANDBY ∧
        (processReport b 18 now st).2.data_timeout = st.data_timeout) ∧
      (rd b 2 = 0x02 →
        (processReport b 18 now st).2.opState = RadarState.TRANSMIT ∧
        (processReport b 18 now st).2.data_timeout = st.data_timeout) ∧
      (rd b 2 = 0x05 →
        (processReport b 18 now st).2.opState = RadarState.WAKING_UP ∧
        (processReport b 18 now st).2.data_timeout = now + DATA_TIMEOUT) ∧
      (rd b 2 ≠ 0x01 → rd b 2 ≠ 0x02 → rd b 2 ≠ 0x05 →
        (processReport b 18 now st).2.opState = st.opState ∧
        (processReport b 18 now st).2.data_timeout = st.data_timeout)) := by
  have hcase : reportCase 18 (rd b 0) (rd b 1) = ReportCase.r01C4 := by
    rw [h0, h1]
    decide
  unfold processReport
  rw [hcase]
  unfold applyReport01
  dsimp only
  constructor
  · intro hsame
    rw [if_neg (by simp [hsame])]
    exact ⟨rfl, rfl⟩
  · intro hdiff
    rw [if_pos (by simpa using hdiff)]
    refine ⟨?_, ?_, ?_, ?_⟩
    · intro hs
      rw [if_pos hs]
      exact ⟨rfl, rfl⟩
    · intro hs
      rw [if_neg (by simp [hs]), if_pos hs]
      exact ⟨rfl, rfl⟩
    · intro hs
      rw [if_neg (by simp [hs]), if_neg (by simp [hs]), if_pos hs]
      exact ⟨rfl, rfl⟩
    · intro hs1 hs2 hs5
      rw [if_neg hs1, if_neg hs2, if_neg hs5]
      exact ⟨rfl, rfl⟩

/-- A length-18 01C4 report with the status byte 0x02 (TRANSMIT). -/
def statusTransmitBuf : Buf := fun i =>
  if i = 0 then 0x01 else if i = 1 then 0xC4 else if i = 2 then 0x02 else 0

/-- Witness for `status_report_amended`: a TRANSMIT status report against
a cache holding 0, so the status block runs and selects TRANSMIT. -/
theorem status_report_amended_witness :
    rd statusTransmitBuf 0 = 0x01 ∧ rd statusTransmitBuf 1 = 0xC4 ∧
    ((rd statusTransmitBuf 2 = emptyReportState.radar_status →
      (processReport statusTransmitBuf 18 7 emptyReportState).2.opState = emptyReportState.opState ∧
      (processReport statusTransmitBuf 18 7 emptyReportState).2.data_timeout = emptyReportState.data_timeout) ∧
    (rd statusTransmitBuf 2 ≠ emptyReportState.radar_status →
      (rd statusTransmitBuf 2 = 0x01 →
        (processReport statusTransmitBuf 18 7 emptyReportState).2.opState = RadarState.STANDBY ∧
        (processReport statusTransmitBuf 18 7 emptyReportState).2.data_timeout = emptyReportState.data_timeout) ∧
      (rd statusTransmitBuf 2 = 0x02 →
        (processReport statusTransmitBuf 18 7 emptyReportState).2.opState = RadarState.TRANSMIT ∧
        (processReport statusTransmitBuf 18 7 emptyReportState).2.data_timeout = emptyReportState.data_timeout) ∧
      (rd statusTransmitBuf 2 = 0x05 →
        (processReport statusTransmitBuf 18 7 emptyReportState).2.opState = RadarState.WAKING_UP ∧
        (processReport statusTransmitBuf 18 7 emptyReportState).2.data_timeout = (7 : Int) + DATA_TIMEOUT) ∧
      (rd statusTransmitBuf 2 ≠ 0x01 → rd statusTransmitBuf 2 ≠ 0x02 → rd statusTransmitBuf 2 ≠ 0x05 →
        (processReport statusTransmitBuf 18 7 emptyReportState).2.opState = emptyReportState.opState ∧
        (processReport statusTransmitBuf 18 7 emptyReportState).2.data_timeout = emptyReportState.data_timeout))) :=
  ⟨by decide, by decide, status_report_amended statusTransmitBuf 7 emptyReportState (by decide) (by decide)⟩

/-- A length-66 04C4 report whose bearing-alignment field holds 7200
tenths of a degree (720.0°). -/
def bearingOverflowBuf : Buf := fun i =>
  if i = 0 then 0x04 else if i = 1 then 0xC4 else
  if i = 6 then 0x20 else if i = 7 then 0x1C else 0

/-- Counterexample to C8 as stated: the bearing-alignment field 7200
(tenths) is stored as 360 whole degrees, which lies outside (−180, 180] —
the code reads the field unsigned and subtracts 360 at most once, so the
result is not normalized for every 16-bit field value. -/
theorem bearing_alignment_claim_counterexample :
    (processReport bearingOverflowBuf 66 0 emptyReportState).2.controls.bearing_alignment.value
      = 360 ∧
    ¬((-180 : Int) < 360 ∧ (360 : Int) ≤ 180) := by
  constructor
  · decide
  · decide

/-- C8 (amended): for a length-66 04C4 bearing/antenna report, the
bearing-alignment field is read as an unsigned 16-bit count of tenths of a
degree, divided by 10 (integer division), and reduced by 360 once when the
quotient exceeds 180; whenever the field encodes an angle within one full
circle (below 3600 tenths) the stored value lies in (−180, 180].  The
antenna-height field in millimeters is converted to meters by integer
division by 1000. -/
theorem bearing_report_amended (b : Buf) (now : Int) (st : ReportState)
    (h0 : rd b 0 = 0x04) (h1 : rd b 1 = 0xC4) :
    (processReport b 66 now st).2.controls.bearing_alignment.value =
      (if ((u16v (rd b 6) (rd b 7) / 10 : Nat) : Int) > 180
       then ((u16v (rd b 6) (rd b 7) / 10 : Nat) : Int) - 360
       else ((u16v (rd b 6) (rd b 7) / 10 : Nat) : Int)) ∧
    (u16v (rd b 6) (rd b 7) < 3600 →
      (-180 : Int) < (processReport b 66 now st).2.controls.bearing_alignment.value ∧
      (processReport b 66 now st).2.controls.bearing_alignment.value ≤ 180) ∧
    (processReport b 66 now st).2.controls.antenna_height.value =
      ((u16v (rd b 10) (rd b 11) / 1000 : Nat) : Int) := by
  have hcase : reportCase 66 (rd b 0) (rd b 1) = ReportCase.r04C4 := by
    rw [h0, h1]
    decide
  unfold processReport
  rw [hcase]
  unfold applyReport04 ControlItem.Update
  dsimp only
  refine ⟨rfl, ?_, rfl⟩
  intro hlt
  have hq : u16v (rd b 6) (rd b 7) / 10 ≤ 359 := by omega
  split
  · rename_i hgt
    constructor
    · omega
    · omega
  · rename_i hle
    constructor
    · omega
    · omega

/-- Witness for `bearing_report_amended`: bearing field 3599 tenths stores
−1 degree, antenna height 2500 mm stores 2 m. -/
def bearingWitnessBuf : Buf := fun i =>
  if i = 0 then 0x04 else if i = 1 then 0xC4 else
  if i = 6 then 0x0F else if i = 7 then 0x0E else
  if i = 10 then 0xC4 else if i = 11 then 0x09 else 0

/-- Witness for `bearing_report_amended` at the concrete report above. -/
theorem bearing_report_amended_witness :
    rd bearingWitnessBuf 0 = 0x04 ∧ rd bearingWitnessBuf 1 = 0xC4 ∧
    ((processReport bearingWitnessBuf 66 0 emptyReportState).2.controls.bearing_alignment.value =
      (if ((u16v (rd bearingWitnessBuf 6) (rd bearingWitnessBuf 7) / 10 : Nat) : Int) > 180
       then ((u16v (rd bearingWitnessBuf 6) (rd bearingWitnessBuf 7) / 10 : Nat) : Int) - 360
       else ((u16v (rd bearingWitnessBuf 6) (rd bearingWitnessBuf 7) / 10 : Nat) : Int)) ∧
    (u16v (rd bearingWitnessBuf 6) (rd bearingWitnessBuf 7) < 3600 →
      (-180 : Int) < (processReport bearingWitnessBuf 66 0 emptyReportState).2.controls.bearing_alignment.value ∧
      (processReport bearingWitnessBuf 66 0 emptyReportState).2.controls.bearing_alignment.value ≤ 180) ∧
    (processReport bearingWitnessBuf 66 0 emptyReportState).2.controls.antenna_height.value =
      ((u16v (rd bearingWitnessBuf 10) (rd bearingWitnessBuf 11) / 1000 : Nat) : Int)) :=
  ⟨by decide, by decide,
   bearing_report_amended bearingWitnessBuf 0 emptyReportState (by decide) (by decide)⟩

/-! ## Receive loop timeout branch, NavicoReceive.cpp lines 480-501 -/

/-- The part of `NavicoReceive::Entry`'s loop state that the select-timeout
branch reads or writes: the two countdown counters, whether the report and
data sockets are open, the operating state, whether `m_interface_addr` and
the detected radar address (`radar_addr`) are set, and a count of
`ResetRadarImage` calls. -/
structure LoopState where
  no_data_timeout : Int
  no_spoke_timeout : Int
  reportOpen : Bool
  dataOpen : Bool
  opState : RadarState
  interfaceAddrSet : Bool
  radarAddrSet : Bool
  imageResets : Nat
deriving DecidableEq, Repr

/-- The `select` timeout branch, lines 480-501: when the no-data counter
reached `SECONDS_SELECT(2)` it is reset and, if the report socket is open,
the socket is closed, the state forced OFF and both the interface address
and the detected radar address are cleared; otherwise the counter is
incremented.  Independently the no-spoke counter triggers
`ResetRadarImage` when it reached `SECONDS_SELECT(2)`. -/
def onSelectTimeout (st : LoopState) : LoopState :=
  let st :=
    if st.no_data_timeout ≥ SECONDS_SELECT 2 then
      let st := { st with no_data_timeout := 0 }
      if st.reportOpen then
        { st with reportOpen := false, opState := RadarState.OFF,
                  interfaceAddrSet := false, radarAddrSet := false }
      else st
    else { st with no_data_timeout := st.no_data_timeout + 1 }
  if st.no_spoke_timeout ≥ SECONDS_SELECT 2 then
    { st with no_spoke_timeout := 0, imageResets := st.imageResets + 1 }
  else { st with no_spoke_timeout := st.no_spoke_timeout + 1 }

/-- C6: the two watchdogs of the timeout branch.  In a state `st1` whose
no-data counter reached the threshold (2 seconds of accumulated 250 ms
quanta) with the report socket open, the branch closes the report socket,
forces the operating state OFF and clears the detected radar address (and
the interface address).  In a state `st2` whose no-spoke counter reached
the threshold while the no-data counter has not, the branch resets the
rendered image without altering the operating state. -/
theorem select_timeout_watchdogs (st1 st2 : LoopState)
    (hd : st1.no_data_timeout ≥ SECONDS_SELECT 2)
    (hr : st1.reportOpen = true)
    (hs : st2.no_spoke_timeout ≥ SECONDS_SELECT 2)
    (hd2 : st2.no_data_timeout < SECONDS_SELECT 2) :
    (onSelectTimeout st1).reportOpen = false ∧
    (onSelectTimeout st1).opState = RadarState.OFF ∧
    (onSelectTimeout st1).radarAddrSet = false ∧
    (onSelectTimeout st1).interfaceAddrSet = false ∧
    (onSelectTimeout st2).imageResets = st2.imageResets + 1 ∧
    (onSelectTimeout st2).opState = st2.opState := by
  constructor
  · unfold onSelectTimeout
    dsimp only
    rw [if_pos hd, if_pos hr]
    split <;> rfl
  constructor
  · unfold onSelectTimeout
    dsimp only
    rw [if_pos hd, if_pos hr]
    split <;> rfl
  constructor
  · unfold onSelectTimeout
    dsimp only
    rw [if_pos hd, if_pos hr]
    split <;> rfl
  constructor
  · unfold onSelectTimeout
    dsimp only
    rw [if_pos hd, if_pos hr]
    split <;> rfl
  constructor
  · unfold onSelectTimeout
    dsimp only
    rw [if_neg (not_le.mpr hd2)]
    dsimp only
    rw [if_pos hs]
  · unfold onSelectTimeout
    dsimp only
    rw [if_neg (not_le.mpr hd2)]
    dsimp only
    rw [if_pos hs]

/-- Witness for `select_timeout_watchdogs`: a state with the no-data
counter at the threshold and the report socket open, and a state with the
no-spoke counter at the threshold. -/
theorem select_timeout_watchdogs_witness :
    (⟨8, 0, true, true, RadarState.STANDBY, true, true, 0⟩ : LoopState).no_data_timeout ≥ SECONDS_SELECT 2 ∧
    (⟨8, 0, true, true, RadarState.STANDBY, true, true, 0⟩ : LoopState).reportOpen = true ∧
    (⟨0, 8, false, false, RadarState.TRANSMIT, false, false, 3⟩ : LoopState).no_spoke_timeout ≥ SECONDS_SELECT 2 ∧
    (⟨0, 8, false, false, RadarState.TRANSMIT, false, false, 3⟩ : LoopState).no_data_timeout < SECONDS_SELECT 2 ∧
    ((onSelectTimeout ⟨8, 0, true, true, RadarState.STANDBY, true, true, 0⟩).reportOpen = false ∧
    (onSelectTimeout ⟨8, 0, true, true, RadarState.STANDBY, true, true, 0⟩).opState = RadarState.OFF ∧
    (onSelectTimeout ⟨8, 0, true, true, RadarState.STANDBY, true, true, 0⟩).radarAddrSet = false ∧
    (onSelectTimeout ⟨8, 0, true, true, RadarState.STANDBY, true, true, 0⟩).interfaceAddrSet = false ∧
    (onSelectTimeout ⟨0, 8, false, false, RadarState.TRANSMIT, false, false, 3⟩).imageResets =
      (⟨0, 8, false, false, RadarState.TRANSMIT, false, false, 3⟩ : LoopState).imageResets + 1 ∧
    (onSelectTimeout ⟨0, 8, false, false, RadarState.TRANSMIT, false, false, 3⟩).opState =
      (⟨0, 8, false, false, RadarState.TRANSMIT, false, false, 3⟩ : LoopState).opState) :=
  ⟨by decide, by decide, by decide, by decide,
   select_timeout_watchdogs
     ⟨8, 0, true, true, RadarState.STANDBY, true, true, 0⟩
     ⟨0, 8, false, false, RadarState.TRANSMIT, false, false, 3⟩
     (by decide) (by decide) (by decide) (by decide)⟩

/-! ## Frame decoder framing: reads stay below the declared length -/

/-- The range decode of one line depends only on the bytes of that line
record. -/
theorem decodeLineRange_agree (b1 b2 : Buf) (base : Nat)
    (h : ∀ k, k < LINE_SIZE → b1 (base + k) = b2 (base + k)) :
    decodeLineRange b1 base = decodeLineRange b2 base := by
  have e : ∀ k, k < LINE_SIZE → rd b1 (base + k) = rd b2 (base + k) := by
    intro k hk
    unfold rd
    rw [h k hk]
  unfold decodeLineRange markIsBR24
  rw [e 4 (by decide), e 5 (by decide), e 6 (by decide), e 7 (by decide),
    e 12 (by decide), e 13 (by decide), e 14 (by decide)]

/-- The return-strength bytes of one line depend only on the bytes of that
line record. -/
theorem lineStrength_agree (b1 b2 : Buf) (base : Nat)
    (h : ∀ k, k < LINE_SIZE → b1 (base + k) = b2 (base + k)) :
    lineStrength b1 base = lineStrength b2 base := by
  unfold lineStrength
  apply List.map_congr_left
  intro k hk
  have hk2 : k < RETURNS_PER_LINE := List.mem_range.mp hk
  unfold rd
  rw [Nat.add_assoc, h (24 + k) (by unfold LINE_SIZE; omega)]

/-- Processing one line depends only on the bytes of that line record. -/
theorem processLine_agree (env : Env) (b1 b2 : Buf) (base : Nat) (st : FrameState)
    (h : ∀ k, k < LINE_SIZE → b1 (base + k) = b2 (base + k)) :
    processLine env b1 base st = processLine env b2 base st := by
  have e : ∀ k, k < LINE_SIZE → rd b1 (base + k) = rd b2 (base + k) := by
    intro k hk
    unfold rd
    rw [h k hk]
  have e0 : rd b1 base = rd b2 base := by
    have h0 := h 0 (by decide)
    unfold rd
    rw [show base + 0 = base from rfl] at h0
    rw [h0]
  unfold processLine
  rw [e0, e 1 (by decide), e 2 (by decide), e 3 (by decide), e 8 (by decide),
    e 9 (by decide), e 10 (by decide), e 11 (by decide),
    decodeLineRange_agree b1 b2 base h, lineStrength_agree b1 b2 base h]

/-- Folding the line loop over in-range indices depends only on the bytes
of the accessed line records. -/
theorem foldl_processLine_agree (env : Env) (b1 b2 : Buf) (n : Nat)
    (hline : ∀ i, i < n → ∀ k, k < LINE_SIZE →
      b1 (FRAME_HDR_SIZE + LINE_SIZE * i + k) = b2 (FRAME_HDR_SIZE + LINE_SIZE * i + k)) :
    ∀ (l : List Nat), (∀ i ∈ l, i < n) → ∀ s : FrameState,
      List.foldl (fun s i => processLine env b1 (FRAME_HDR_SIZE + LINE_SIZE * i) s) s l =
      List.foldl (fun s i => processLine env b2 (FRAME_HDR_SIZE + LINE_SIZE * i) s) s l := by
  intro l
  induction l with
  | nil =>
    intro _ s
    exact (List.foldl_nil).trans (List.foldl_nil).symm
  | cons x xs ih =>
    intro hmem s
    have h1 : processLine env b1 (FRAME_HDR_SIZE + LINE_SIZE * x) s
        = processLine env b2 (FRAME_HDR_SIZE + LINE_SIZE * x) s :=
      processLine_agree env b1 b2 _ s (hline x (hmem x (List.mem_cons_self x xs)))
    have h2 := ih (fun i hi => hmem i (List.mem_cons_of_mem x hi))
      (processLine env b2 (FRAME_HDR_SIZE + LINE_SIZE * x) s)
    exact (List.foldl_cons _ _).trans
      (((congrArg
          (fun a =>
            List.foldl (fun s i => processLine env b1 (FRAME_HDR_SIZE + LINE_SIZE * i) s) a xs)
          h1).trans h2).trans
        (List.foldl_cons _ _).symm)

/-- C4 framing lemma for the spoke-frame decoder: two buffers that agree
on every byte below the declared length decode identically — the decoder
only accesses line records that lie entirely within the declared length. -/
theorem processFrame_reads_within_length (env : Env) (b1 b2 : Buf) (len : Nat)
    (st : FrameState) (h : ∀ i, i < len → b1 i = b2 i) :
    processFrame env b1 len st = processFrame env b2 len st := by
  have expand : ∀ (b : Buf),
      processFrame env b len st =
        if len < FRAME_HDR_SIZE then
          { st with
            radar_timeout := env.now + WATCHDOG_TIMEOUT,
            data_timeout := env.now + DATA_TIMEOUT,
            opState := RadarState.TRANSMIT,
            stats.packets := st.stats.packets + 1,
            stats.broken_packets := st.stats.broken_packets + 1 }
        else
          (List.range ((len - FRAME_HDR_SIZE) / LINE_SIZE)).foldl
            (fun s i => processLine env b (FRAME_HDR_SIZE + LINE_SIZE * i) s)
            (if (len - FRAME_HDR_SIZE) / LINE_SIZE ≠ 32 then
              { st with
                radar_timeout := env.now + WATCHDOG_TIMEOUT,
                data_timeout := env.now + DATA_TIMEOUT,
                opState := RadarState.TRANSMIT,
                stats.packets := st.stats.packets + 1,
                stats.broken_packets := st.stats.broken_packets + 1 }
            else
              { st with
                radar_timeout := env.now + WATCHDOG_TIMEOUT,
                data_timeout := env.now + DATA_TIMEOUT,
                opState := RadarState.TRANSMIT,
                stats.packets := st.stats.packets + 1 }) := fun b => rfl
  rw [expand b1, expand b2]
  by_cases hlen : len < FRAME_HDR_SIZE
  · rw [if_pos hlen, if_pos hlen]
  · rw [if_neg hlen, if_neg hlen]
    have hlen8 : FRAME_HDR_SIZE ≤ len := Nat.le_of_not_lt hlen
    have hmul : ((len - FRAME_HDR_SIZE) / LINE_SIZE) * LINE_SIZE ≤ len - FRAME_HDR_SIZE :=
      Nat.div_mul_le_self _ _
    have hline : ∀ i, i < (len - FRAME_HDR_SIZE) / LINE_SIZE →
        ∀ k, k < LINE_SIZE → b1 (FRAME_HDR_SIZE + LINE_SIZE * i + k)
          = b2 (FRAME_HDR_SIZE + LINE_SIZE * i + k) := by
      intro i hi k hk
      apply h
      have hstep : LINE_SIZE * (i + 1) ≤ LINE_SIZE * ((len - FRAME_HDR_SIZE) / LINE_SIZE) :=
        Nat.mul_le_mul_left _ hi
      have hle : LINE_SIZE * ((len - FRAME_HDR_SIZE) / LINE_SIZE) ≤ len - FRAME_HDR_SIZE := by
        rw [Nat.mul_comm]
        exact hmul
      have hfit : LINE_SIZE * i + k < len - FRAME_HDR_SIZE := by
        have hlt : LINE_SIZE * i + k < LINE_SIZE * (i + 1) := by
          rw [Nat.mul_add, Nat.mul_one]
          omega
        omega
      omega
    exact foldl_processLine_agree env b1 b2 _ hline _
      (fun i hi => List.mem_range.mp hi) _
